import Mathlib

set_option maxHeartbeats 1000000

/-!
Shallow embedding of the rotating log writer from
`src/github.com/seantcanavan/logger/logger.go`.

Machine integers are modelled as `Nat`/`Int` with explicit two's-complement
wrapping (`wrap64`, `iwrap64`) where the Go code uses `uint64`/`int64`
arithmetic.  The file system is modelled explicitly: a `World` carries the
`SeanLogger` struct, the list of files created so far (in creation order),
the index of the currently open file (`none` models a nil `*os.File`, the
state after a failed `os.Create` in `newFile`), the contents of the
`bufio.Writer` buffer, and a counter of operator alerts raised (so that the
effect of `handleCreateError` is observable).  The wall clock and the
timestamp string produced by `utils.FullDateStringSafe` (an external
dependency) are threaded in as parameters, and the success of `os.Create`
as a boolean.
-/

def wrap64 (n : Nat) : Nat := n % 2 ^ 64

def iwrap64 (x : Int) : Int := (x + 2 ^ 63) % 2 ^ 64 - 2 ^ 63

/-- An on-disk log file: its name, its lines (already written through the
buffered writer), and whether it has been closed. -/
structure FileRec where
  name : String
  content : List String
  closed : Bool
deriving Repr, DecidableEq

/-- The `SeanLogger` struct of `logger.go`, numeric fields only (the
`*os.File` and `*bufio.Writer` handles live in `World`). -/
structure SeanLogger where
  BaseLogName : String
  MaxLogFileCount : Nat
  MaxLogMessageCount : Nat
  MaxLogDuration : Int
  logFileCount : Nat
  logMessageCount : Nat
  logDuration : Int
  logStamp : Int
deriving Repr, DecidableEq

/-- The logger together with its observable environment: files created so
far in creation order, the index of the open file (`sl.log`), the buffered
writer's pending lines, and the number of operator alerts raised so far. -/
structure World where
  sl : SeanLogger
  files : List FileRec
  active : Option Nat
  buffer : List String
  alerts : Nat
deriving Repr, DecidableEq

/-- `LogFileHandle` from `logger.go`: writes the base name, a single space
and the date string into a `bytes.Buffer` and returns the result.  The
date string `dts` (produced by the external `utils.FullDateStringSafe`)
is a parameter. -/
def LogFileHandle (dts : String) (logBaseName : String) : String :=
  let nameBuffer : String := ""
  let nameBuffer := nameBuffer ++ logBaseName
  let nameBuffer := nameBuffer ++ " "
  let nameBuffer := nameBuffer ++ dts
  nameBuffer

/-- `StartLog` from `logger.go`.  `os.Create` is modelled by `createOk`
together with the creation of a fresh empty file; on failure the error is
returned before any field of the receiver is touched.  On success it sets
`BaseLogName`, resets `logFileCount`, `logDuration` and `logStamp`
(`logMessageCount` is not assigned in the source) and installs a fresh
file handle and buffered writer. -/
def StartLog (w : World) (logBaseName : String) (dts : String) (now : Int)
    (createOk : Bool) : World × Option String :=
  if createOk then
    ({ sl := { w.sl with
         BaseLogName := logBaseName
         logFileCount := 0
         logDuration := 0
         logStamp := now }
       files := w.files ++ [{ name := LogFileHandle dts logBaseName, content := [], closed := false }]
       active := some w.files.length
       buffer := []
       alerts := w.alerts }, none)
  else
    (w, some "os.Create failed")

/-- Flushing the buffered writer into a file and closing it
(`sl.writer.Flush(); sl.log.Close()` in `newFile`). -/
def appendClose (buffer : List String) (f : FileRec) : FileRec :=
  { f with content := f.content ++ buffer, closed := true }

/-- Replace the element at an index by its image under `g` (used to write
the flushed buffer into the file the open handle points at). -/
def modifyAt (g : FileRec → FileRec) : Nat → List FileRec → List FileRec
  | _, [] => []
  | 0, f :: fs => g f :: fs
  | n + 1, f :: fs => f :: modifyAt g n fs

/-- `handleCreateError` from `logger.go`: its body is empty (only a comment
describing an intended email alert), so it has no observable effect; in
particular it raises no operator alert. -/
def handleCreateError (w : World) : World := w

/-- `newFile` from `logger.go`: flush the writer and close the current file
(when the handle is nil the flush fails and the buffered lines are lost,
since the writer is replaced immediately afterwards), then attempt
`os.Create`.  On failure `handleCreateError` is called and execution falls
through, leaving `sl.log` nil.  No counter of the receiver is assigned. -/
def newFile (w : World) (dts : String) (createOk : Bool) : World :=
  let files1 :=
    match w.active with
    | some i => modifyAt (appendClose w.buffer) i w.files
    | none => w.files
  if createOk then
    { w with
      files := files1 ++ [{ name := LogFileHandle dts w.sl.BaseLogName, content := [], closed := false }]
      active := some files1.length
      buffer := [] }
  else
    let w1 := handleCreateError w
    { w1 with files := files1, active := none, buffer := [] }

/-- The counter updates of `LogMessage` after the `Fprintln`:
`logMessageCount++`, `logDuration += now - logStamp`, `logStamp = now`,
with `uint64`/`int64` wrapping. -/
def postWrite (sl : SeanLogger) (now : Int) : SeanLogger :=
  { sl with
    logMessageCount := wrap64 (sl.logMessageCount + 1)
    logDuration := iwrap64 (sl.logDuration + iwrap64 (now - sl.logStamp))
    logStamp := now }

/-- `LogMessage` from `logger.go`: `fmt.Fprintln(sl.writer, message)`
appends the newline-terminated message to the writer's buffer, the
counters are updated, and `newFile` is invoked exactly when
`logMessageCount > MaxLogMessageCount || logDuration > MaxLogDuration`. -/
def LogMessage (w : World) (message : String) (now : Int) (dts : String)
    (createOk : Bool) : World :=
  let w1 : World := { w with buffer := w.buffer ++ [message ++ "\n"], sl := postWrite w.sl now }
  if w1.sl.logMessageCount > w1.sl.MaxLogMessageCount ∨
      w1.sl.logDuration > w1.sl.MaxLogDuration then
    newFile w1 dts createOk
  else
    w1

/-- Run a sequence of `LogMessage` calls; each step supplies the message,
the wall-clock second and the date string for a possible rollover.  All
`os.Create` calls succeed (the no-I/O-failure assumption). -/
def runLog (w : World) : List (String × Int × String) → World
  | [] => w
  | (msg, now, dts) :: rest => runLog (LogMessage w msg now dts true) rest

/-- Every line the logger has produced, in order: the contents of each
created file in creation order, followed by the still-buffered lines of
the active file. -/
def producedLines (w : World) : List String :=
  (w.files.map FileRec.content).flatten ++ w.buffer

/-- Modelled from the spec: the repository's logger package exposes a
`close() -> error` operation that is not present under `src/` (the file
`updater.go` in this repository calls a richer logger API than the one
file available).  Per the spec it flushes and closes the active file and
returns no error; a second call finds no active file and is a no-op. -/
def closeLog (w : World) : World × Option String :=
  match w.active with
  | some i =>
      ({ w with files := modifyAt (appendClose w.buffer) i w.files, active := none, buffer := [] },
       none)
  | none => (w, none)

theorem modifyAt_length (g : FileRec → FileRec) (n : Nat) (l : List FileRec) :
    (modifyAt g n l).length = l.length := by
  induction l generalizing n with
  | nil => cases n <;> rfl
  | cons f fs ih =>
    cases n with
    | zero => rfl
    | succ m => simp [modifyAt, ih]

theorem newFile_files_length (w : World) (dts : String) :
    (newFile w dts true).files.length = w.files.length + 1 := by
  cases h : w.active <;> simp [newFile, h, modifyAt_length]

/-- C7: the generated log file name is exactly the base name, a single
space, then the timestamp string; in particular it begins with the base
name. -/
theorem logFileHandle_format (dts logBaseName : String) :
    LogFileHandle dts logBaseName = logBaseName ++ " " ++ dts ∧
    ∃ rest, LogFileHandle dts logBaseName = logBaseName ++ rest := by
  refine ⟨?_, " " ++ dts, ?_⟩ <;>
    simp [LogFileHandle, String.append_assoc]

/-- C9: when `os.Create` fails, `StartLog` returns the error and leaves
every field of the `SeanLogger` receiver (and the rest of the world)
unchanged. -/
theorem startLog_atomic_on_failure (w : World) (logBaseName dts : String) (now : Int) :
    (StartLog w logBaseName dts now false).1 = w ∧
    (StartLog w logBaseName dts now false).2.isSome = true := by
  constructor <;> rfl

theorem newFile_sl (w : World) (dts : String) (createOk : Bool) :
    (newFile w dts createOk).sl = w.sl := by
  cases createOk <;> rfl

theorem logMessage_sl (w : World) (message : String) (now : Int)
    (dts : String) (createOk : Bool) :
    (LogMessage w message now dts createOk).sl = postWrite w.sl now := by
  unfold LogMessage
  dsimp only
  split
  · exact newFile_sl _ dts createOk
  · rfl

/-- C10: `LogMessage`, including any rollover it triggers, never modifies
the configuration fields `BaseLogName`, `MaxLogFileCount`,
`MaxLogMessageCount` or `MaxLogDuration`. -/
theorem logMessage_preserves_config (w : World) (message : String) (now : Int)
    (dts : String) (createOk : Bool) :
    (LogMessage w message now dts createOk).sl.BaseLogName = w.sl.BaseLogName ∧
    (LogMessage w message now dts createOk).sl.MaxLogFileCount = w.sl.MaxLogFileCount ∧
    (LogMessage w message now dts createOk).sl.MaxLogMessageCount = w.sl.MaxLogMessageCount ∧
    (LogMessage w message now dts createOk).sl.MaxLogDuration = w.sl.MaxLogDuration := by
  have h := logMessage_sl w message now dts createOk
  refine ⟨?_, ?_, ?_, ?_⟩ <;> rw [h] <;> rfl

/-- C2: a `LogMessage` call invokes the rollover routine — observed here
as the creation of one new file — exactly when, after the write, the
message counter strictly exceeds `MaxLogMessageCount` or the accumulated
duration strictly exceeds `MaxLogDuration`; exact equality with either
threshold never rotates. -/
theorem logMessage_rotates_iff (w : World) (message : String) (now : Int)
    (dts : String) :
    (LogMessage w message now dts true).files.length = w.files.length + 1 ↔
      ((postWrite w.sl now).logMessageCount > w.sl.MaxLogMessageCount ∨
        (postWrite w.sl now).logDuration > w.sl.MaxLogDuration) := by
  unfold LogMessage
  dsimp only
  split
  · next h => exact iff_of_true (newFile_files_length _ dts) h
  · next h => exact iff_of_false (Nat.ne_of_lt (Nat.lt_succ_self _)) h

/-- C6: when `os.Create` fails in `newFile` the logger is left with a nil
file handle (degraded state), but `handleCreateError` has an empty body,
so the alert counter is unchanged: no operator alert is raised and the
failure is silently swallowed. -/
theorem newFile_create_failure_silent (w : World) (dts : String) :
    (newFile w dts false).active = none ∧
    (newFile w dts false).alerts = w.alerts := by
  exact ⟨rfl, rfl⟩

theorem modifyAt_last_flatten (buf : List String) (files : List FileRec) :
    ∀ i : Nat, i + 1 = files.length →
      ((modifyAt (appendClose buf) i files).map FileRec.content).flatten =
        (files.map FileRec.content).flatten ++ buf := by
  induction files with
  | nil => intro i h; simp at h
  | cons f fs ih =>
    intro i h
    cases i with
    | zero =>
      have hfs : fs = [] := by
        cases fs with
        | nil => rfl
        | cons g gs => simp at h
      subst hfs
      simp [modifyAt, appendClose]
    | succ n =>
      have h' : n + 1 = fs.length := by simpa using h
      simp [modifyAt, ih n h', List.append_assoc]

/-- The open handle always points at the most recently created file. -/
def ActiveIsLast (w : World) : Prop :=
  ∃ n, w.files.length = n + 1 ∧ w.active = some n

theorem newFile_activeIsLast (w : World) (dts : String) :
    ActiveIsLast (newFile w dts true) := by
  cases h : w.active with
  | none =>
      exact ⟨w.files.length, by simp [newFile, h], by simp [newFile, h]⟩
  | some i =>
      exact ⟨(modifyAt (appendClose w.buffer) i w.files).length,
        by simp [newFile, h], by simp [newFile, h]⟩

theorem logMessage_activeIsLast (w : World) (message : String) (now : Int)
    (dts : String) (h : ActiveIsLast w) :
    ActiveIsLast (LogMessage w message now dts true) := by
  unfold LogMessage
  dsimp only
  split
  · exact newFile_activeIsLast _ dts
  · exact h

theorem newFile_producedLines (w : World) (dts : String) (n : Nat)
    (hlen : w.files.length = n + 1) (hact : w.active = some n) :
    producedLines (newFile w dts true) =
      (w.files.map FileRec.content).flatten ++ w.buffer := by
  simp only [newFile, producedLines, hact]
  simp [List.map_append, List.flatten_append,
    modifyAt_last_flatten w.buffer w.files n hlen.symm]

theorem logMessage_producedLines (w : World) (message : String) (now : Int)
    (dts : String) (h : ActiveIsLast w) :
    producedLines (LogMessage w message now dts true) =
      producedLines w ++ [message ++ "\n"] := by
  obtain ⟨n, hlen, hact⟩ := h
  unfold LogMessage
  dsimp only
  split
  · rw [newFile_producedLines
      { w with sl := postWrite w.sl now, buffer := w.buffer ++ [message ++ "\n"] }
      dts n hlen hact]
    simp [producedLines, List.append_assoc]
  · simp [producedLines, List.append_assoc]

theorem runLog_producedLines (steps : List (String × Int × String)) :
    ∀ w : World, ActiveIsLast w →
      producedLines (runLog w steps) =
        producedLines w ++ steps.map (fun p => p.1 ++ "\n") := by
  induction steps with
  | nil => intro w _; simp [runLog]
  | cons s rest ih =>
    intro w h
    obtain ⟨msg, now, dts⟩ := s
    rw [runLog, ih _ (logMessage_activeIsLast w msg now dts h),
      logMessage_producedLines w msg now dts h]
    simp [List.append_assoc]

/-- C4: round-trip with no loss and no duplication — after a successful
`StartLog`, for any sequence of `LogMessage` calls in which every
`os.Create` succeeds, the concatenation of the contents of all produced
files (in creation order, the still-buffered tail of the active file
included) is exactly the appended messages, each terminated by the line
separator, in order: each message lands exactly once in exactly one file,
across any number of rollovers. -/
theorem append_round_trip (w : World) (logBaseName dts0 : String) (now0 : Int)
    (steps : List (String × Int × String)) :
    producedLines (runLog (StartLog w logBaseName dts0 now0 true).1 steps) =
      (w.files.map FileRec.content).flatten ++ steps.map (fun p => p.1 ++ "\n") := by
  rw [runLog_producedLines steps _
    ⟨w.files.length, by simp [StartLog], by simp [StartLog]⟩]
  simp [producedLines, StartLog]

/-- C8: `closeLog` never errors, and a second call is a no-op: it returns
the same state (no duplicate writes) and no error. -/
theorem closeLog_idempotent (w : World) :
    (closeLog w).2 = none ∧
    closeLog (closeLog w).1 = ((closeLog w).1, none) := by
  cases h : w.active <;> simp [closeLog, h]

/-- A fresh `World`: zero-valued handles, no files on disk yet. -/
def wEmpty (sl : SeanLogger) : World :=
  { sl := sl, files := [], active := none, buffer := [], alerts := 0 }

/-- Configuration for the C1 run: `maxMessageCount = k = 1`, duration
threshold far away. -/
def slC1 : SeanLogger :=
  { BaseLogName := "", MaxLogFileCount := 10, MaxLogMessageCount := 1
    MaxLogDuration := 1000000, logFileCount := 0, logMessageCount := 0
    logDuration := 0, logStamp := 0 }

/-- C1 fails on the code: `newFile` assigns no counter, so
`logMessageCount` is still 2 (not 0) right after the first rollover, every
later message also trips the `> 1` check, and appending N = 4 messages
with k = 1 yields 4 files instead of the claimed ceil(4 / 2) = 2. -/
theorem newFile_does_not_reset_counters :
    (runLog (StartLog (wEmpty slC1) "app" "t0" 0 true).1
        [("a", 0, "t1"), ("b", 0, "t2")]).files.length = 2 ∧
    (runLog (StartLog (wEmpty slC1) "app" "t0" 0 true).1
        [("a", 0, "t1"), ("b", 0, "t2")]).sl.logMessageCount = 2 ∧
    (runLog (StartLog (wEmpty slC1) "app" "t0" 0 true).1
        [("a", 0, "t1"), ("b", 0, "t2"), ("c", 0, "t3"), ("d", 0, "t4")]).files.length = 4 := by
  exact ⟨rfl, rfl, rfl⟩

/-- Configuration for the C3 run: `MaxLogFileCount = 1`, and
`MaxLogMessageCount = 0` so that every message trips a rollover. -/
def slC3 : SeanLogger :=
  { BaseLogName := "", MaxLogFileCount := 1, MaxLogMessageCount := 0
    MaxLogDuration := 1000000, logFileCount := 0, logMessageCount := 0
    logDuration := 0, logStamp := 0 }

/-- C3 fails on the code: no code path reads `MaxLogFileCount` or deletes
a file, so after three rollovers four files sit on disk although
`MaxLogFileCount = 1`. -/
theorem no_pruning_after_rollover :
    (runLog (StartLog (wEmpty slC3) "app" "t0" 0 true).1
        [("a", 0, "t1"), ("b", 0, "t2"), ("c", 0, "t3")]).files.length = 4 ∧
    (runLog (StartLog (wEmpty slC3) "app" "t0" 0 true).1
        [("a", 0, "t1"), ("b", 0, "t2"), ("c", 0, "t3")]).sl.MaxLogFileCount = 1 := by
  constructor <;> rfl

/-- A logger that has already been used: `logMessageCount = 5`. -/
def slC5 : SeanLogger :=
  { BaseLogName := "old", MaxLogFileCount := 10, MaxLogMessageCount := 100
    MaxLogDuration := 1000, logFileCount := 3, logMessageCount := 5
    logDuration := 7, logStamp := 42 }

/-- C5 fails on the code: `StartLog` (comment: "init / reset the log
trackers") resets `logFileCount`, `logDuration` and `logStamp`, but never
assigns `logMessageCount`, so after a successful `StartLog` on a logger
that had already counted 5 messages the message counter is still 5, not
0. -/
theorem startLog_does_not_reset_message_count :
    (StartLog (wEmpty slC5) "app" "t0" 100 true).1.sl.logMessageCount = 5 ∧
    (StartLog (wEmpty slC5) "app" "t0" 100 true).1.sl.logDuration = 0 ∧
    (StartLog (wEmpty slC5) "app" "t0" 100 true).1.sl.logStamp = 100 := by
  exact ⟨rfl, rfl, rfl⟩
